import Mathlib

/-!
Shallow embedding of the basedpyright-playground session manager
(server `sessionManager.ts`, client `sessionManager.ts`) and the
theorems checking the specification's claims against it.

Conventions of the embedding:
* JS `Map` objects become association lists with functional update.
* Timestamps (`Date.now()`) are `Nat` parameters threaded explicitly.
* Fallible operations return `Except String`; a JS `try { } catch { }`
  that swallows the error becomes a `match` that discards the error.
* External collaborators (npm package index, plugin installer, the
  filesystem, the spawned worker process) are modelled as explicit
  inputs: an `NpmIndex` value, an `installOk` oracle, an `rmOk` flag,
  and a `StartOutcome` describing which process event fired.
-/

namespace Playground

/-- JS truthiness of an optional string: `undefined` and `""` are falsy. -/
def truthyStr : Option String → Bool
  | none => false
  | some s => !s.isEmpty

/-- A version string is a canary/prerelease when it contains a hyphen:
JS `version.includes('-')`, tested on the string's characters. -/
def hasHyphen (s : String) : Bool := s.data.contains '-'

/-- Constant `maxPyrightVersionCount` from the source: cap on versions returned. -/
def maxPyrightVersionCount : Nat := 50

/-- Model of the npm package-index response: `Object.keys(response.versions)`
in registry order (oldest first), and the `response.version` field
(`undefined` modelled as `none`). -/
structure NpmIndex where
  versions : List String
  latestVersion : Option String
  deriving DecidableEq

/-- Server `getPyrightVersions`: filter out canary versions, newest first,
cap at `maxPyrightVersionCount`. -/
def getPyrightVersions (idx : NpmIndex) : List String :=
  let versions := idx.versions
  let versions := versions.filter (fun v => !hasHyphen v)
  let versions := versions.reverse
  versions.take maxPyrightVersionCount

/-- Server `getPyrightLatestVersion`: returns the index's `version` field
verbatim when it is a string, otherwise a named failure. -/
def getPyrightLatestVersion (idx : NpmIndex) : Except String String :=
  match idx.latestVersion with
  | some v => Except.ok v
  | none => Except.error "Failed to get latest version of pyright"

/-- Client `getPyrightVersions` (client/sessionManager.ts): filter out canary
versions unless there are only canary versions, newest first, capped. -/
def clientGetPyrightVersions (versions : List String) : List String :=
  let releaseVersions := versions.filter (fun v => !hasHyphen v)
  let versions := if releaseVersions.length != 0 then releaseVersions else versions
  let versions := versions.reverse
  versions.take maxPyrightVersionCount

/-- The version-selection step at the top of `installPyright`:
`requestedVersion` is used when truthy, otherwise the latest version is
queried (errors propagate). -/
def resolveVersion (requestedVersion : Option String) (idx : NpmIndex) :
    Except String String :=
  if truthyStr requestedVersion then Except.ok (requestedVersion.getD "")
  else getPyrightLatestVersion idx

/-- Structure `InstallPyrightInfo` from the source. -/
structure InstallPyrightInfo where
  pyrightVersion : String
  localDirectory : String
  deriving DecidableEq

/-- The directory `./pyright_local/${version}`. -/
def localDirName (version : String) : String := "./pyright_local/" ++ version

/-- On-disk state of the version cache: which version directories exist
(`fs.existsSync(dirName)` keyed by version) and the log of invocations of
the external install collaborator (`manager.install`). -/
structure ArtifactStore where
  dirs : List String
  installCalls : List String
  deriving DecidableEq

/-- Server `installPyright`. The directory-creation step (`mkdir`) is
modelled as succeeding; `installOk` is the outcome of the external
install collaborator for a given version. Faithful to the source: a
cache hit returns immediately; otherwise the directory tree is created,
the collaborator is invoked, and on failure the error is rethrown as
`Failed to install pyright@version` with no cleanup of the directory. -/
def installPyright (store : ArtifactStore) (requestedVersion : Option String)
    (idx : NpmIndex) (installOk : String → Bool) :
    ArtifactStore × Except String InstallPyrightInfo :=
  match resolveVersion requestedVersion idx with
  | Except.error e => (store, Except.error e)
  | Except.ok version =>
    if store.dirs.contains version then
      (store, Except.ok ⟨version, localDirName version⟩)
    else
      let store := { store with
        dirs := store.dirs ++ [version],
        installCalls := store.installCalls ++ [version] }
      if installOk version then
        (store, Except.ok ⟨version, localDirName version⟩)
      else
        (store, Except.error ("Failed to install pyright@" ++ version))

/-- Run a sequence of install requests, keeping only the store state. -/
def installAll (store : ArtifactStore) (vs : List String) (idx : NpmIndex)
    (installOk : String → Bool) : ArtifactStore :=
  vs.foldl (fun s v => (installPyright s (some v) idx installOk).1) store

/-- A session record (server `session.ts` plus the fields `startSession`
mutates): worker-process handle and LSP client are absent until the worker
reports spawn. The handles are modelled by their identifying data (a pid
for the process, `Unit` for the client object). -/
structure Session where
  id : String
  tempDirPath : String
  langServerProcess : Option Nat
  langClient : Option Unit
  lastAccessTime : Nat
  deriving DecidableEq

/-- A JS `Map` with string keys (also a plain JS object used as a map):
an association list with at most one binding per key in practice; reads
see the first binding. -/
def assocLookup {α : Type} (l : List (String × α)) (k : String) : Option α :=
  (List.find? (fun p => p.1 == k) l).map (fun p => p.2)

/-- Operation `map.set(k, v)` / `obj[k] = v`: replace the binding in place when the
key exists, else append it. -/
def assocSet {α : Type} (l : List (String × α)) (k : String) (v : α) :
    List (String × α) :=
  if List.any l (fun p => p.1 == k) then
    List.map (fun p => if p.1 == k then (k, v) else p) l
  else l ++ [(k, v)]

/-- Operation `map.delete(k)`. -/
def assocRemove {α : Type} (l : List (String × α)) (k : String) :
    List (String × α) :=
  List.filter (fun p => !(p.1 == k)) l

/-- The `activeSessions` map, as an association list keyed by session id. -/
abbrev Registry := List (String × Session)

/-- Operation `activeSessions.get(id)`. -/
def lookupSession (reg : Registry) (sid : String) : Option Session :=
  assocLookup reg sid

/-- Operation `activeSessions.set(id, s)`. -/
def setSession (reg : Registry) (sid : String) (s : Session) : Registry :=
  assocSet reg sid s

/-- Operation `activeSessions.delete(id)`. -/
def removeSession (reg : Registry) (sid : String) : Registry :=
  assocRemove reg sid

/-- Function `getSessionById`: look the record up and, when found, refresh its
`lastAccessTime` to now (read-with-touch). -/
def getSessionById (reg : Registry) (sid : String) (now : Nat) :
    Registry × Option Session :=
  match lookupSession reg sid with
  | none => (reg, none)
  | some s =>
    let s := { s with lastAccessTime := now }
    (setSession reg sid s, some s)

/-- Side effects performed during session teardown. -/
inductive TeardownEffect where
  | cancelRequests (sid : String)
  | killProcess (pid : Nat)
  | removeDir (dir : String)
  deriving DecidableEq

/-- Primitive `fs.rmSync(path, recursive)`, which can fail. -/
def rmSyncResult (rmOk : Bool) (dir : String) : Except String Unit :=
  if rmOk then Except.ok () else Except.error ("failed to remove " ++ dir)

/-- Function `closeSession`: no-op when the id is unknown; otherwise cancel the
client's requests, kill the worker if present, clear the process handle,
delete the registry entry, and remove the temp directory with the error
swallowed. Returns the new registry, the effects performed, and the final
state of the (now deregistered) session object. The result type is
`Except`-free at the top level only because the one fallible step,
`rmSyncResult`, is wrapped in the source's try/catch, modelled by the
`match` that discards the error. -/
def closeSession (reg : Registry) (sid : String) (rmOk : Bool) :
    Registry × List TeardownEffect × Option Session :=
  match lookupSession reg sid with
  | none => (reg, [], none)
  | some s =>
    let cancelEffects : List TeardownEffect :=
      match s.langClient with
      | some _ => [TeardownEffect.cancelRequests sid]
      | none => []
    let killEffects : List TeardownEffect :=
      match s.langServerProcess with
      | some pid => [TeardownEffect.killProcess pid]
      | none => []
    let s := { s with langServerProcess := none }
    let reg := removeSession reg sid
    let rmEffects : List TeardownEffect := [TeardownEffect.removeDir s.tempDirPath]
    match rmSyncResult rmOk s.tempDirPath with
    | Except.ok _ => (reg, cancelEffects ++ killEffects ++ rmEffects, some s)
    | Except.error _ => (reg, cancelEffects ++ killEffects ++ rmEffects, some s)

/-- Which process/handshake events fire for a freshly forked worker during
`startSession`. `spawnInitOk`: the spawn event fires and the initialize
exchange succeeds (the promise resolves with the session id).
`spawnInitFail`: the spawn event fires but the initialize exchange
rejects (the promise rejects and `closeSession` runs). `errorBeforeSpawn`:
the error event fires while `session.langServerProcess` is still unset
(the promise rejects and `closeSession` runs). Exit/close events on an
already-live session go through the same `closeSession` and are outside
the creation path. -/
inductive StartOutcome where
  | spawnInitOk
  | spawnInitFail
  | errorBeforeSpawn
  deriving DecidableEq

/-- The observable run of one `startSession` call: the registry states it
traverses in order (the last one is `finalRegistry`), and the promise's
result. -/
structure StartRun where
  trace : List Registry
  finalRegistry : Registry
  result : Except String String

/-- Function `startSession`: the registry states traversed and the promise's
result. The source mutates one shared session object; here each mutation
is re-`set` into the registry. The first traversed state is the one right
after `activeSessions.set(sessionId, session)`, which the source executes
before any process event has fired. -/
def startSessionRun (reg : Registry) (sid tempDir : String) (now pid : Nat)
    (outcome : StartOutcome) (rmOk : Bool) : StartRun :=
  let s0 : Session :=
    { id := sid, tempDirPath := tempDir, langServerProcess := none,
      langClient := none, lastAccessTime := now }
  let reg1 := setSession reg sid s0
  match outcome with
  | StartOutcome.spawnInitOk =>
    let s1 := { s0 with langServerProcess := some pid, langClient := some () }
    let reg2 := setSession reg1 sid s1
    ⟨[reg1, reg2], reg2, Except.ok sid⟩
  | StartOutcome.spawnInitFail =>
    let s1 := { s0 with langServerProcess := some pid, langClient := some () }
    let reg2 := setSession reg1 sid s1
    let reg3 := (closeSession reg2 sid rmOk).1
    ⟨[reg1, reg2, reg3], reg3,
      Except.error "Failed to start pyright language server connection"⟩
  | StartOutcome.errorBeforeSpawn =>
    let reg2 := (closeSession reg1 sid rmOk).1
    ⟨[reg1, reg2], reg2,
      Except.error "Failed to spawn pyright language server instance"⟩

/-- A registered record is fully initialized when both the worker-process
handle and the client handle are present. -/
def fullyInitialized (s : Session) : Bool :=
  s.langServerProcess.isSome && s.langClient.isSome

/-- Every record in the registry is fully initialized. -/
def registryAllInitialized (reg : Registry) : Bool :=
  List.all reg (fun p => fullyInitialized p.2)

/-- Constant `maxSessionLifetime` from the source: one minute, in milliseconds. -/
def maxSessionLifetime : Nat := 60000

/-- Constant `lifetimeTimerFrequency` from the source: one minute, in milliseconds. -/
def lifetimeTimerFrequency : Nat := 60000

/-- The session-manager module state: the `activeSessions` map and whether
`lifetimeTimer` currently holds a scheduled timeout. -/
structure ServerState where
  sessions : Registry
  timerArmed : Bool
  deriving DecidableEq

/-- Function `scheduleSessionLifetimeTimer`: if there is already a timer, do
nothing, else arm one. -/
def scheduleSessionLifetimeTimer (st : ServerState) : ServerState :=
  if st.timerArmed then st else { st with timerArmed := true }

/-- The body of the timeout callback in `scheduleSessionLifetimeTimer`:
clear `lifetimeTimer`, close every session idle for longer than
`maxSessionLifetime` (the loop calls `closeSession` and then
`activeSessions.delete` again), and then re-arm the timer when — per the
source's test `activeSessions.size === 0` — the registry is empty. -/
def lifetimeTimerCallback (st : ServerState) (now : Nat) (rmOk : Bool) :
    ServerState :=
  let st := { st with timerArmed := false }
  let expired :=
    List.filter (fun p => decide (maxSessionLifetime < now - p.2.lastAccessTime))
      st.sessions
  let reg :=
    List.foldl (fun r p => removeSession (closeSession r p.1 rmOk).1 p.1)
      st.sessions expired
  let st := { st with sessions := reg }
  if reg.length = 0 then scheduleSessionLifetimeTimer st else st

/-- Constant `defaultPythonVersion` from the source. -/
def defaultPythonVersion : String := "3.12"

/-- Constant `defaultPythonPlatform` from the source. -/
def defaultPythonPlatform : String := "All"

/-- A value stored in the synthesized `pyrightconfig.json` object: the
computed fields are strings, the caller overrides are booleans. -/
inductive ConfigValue where
  | str (s : String)
  | bool (b : Bool)
  deriving DecidableEq

/-- Interface `SessionOptions` from `session.ts`; `configOverrides` is a JS object
with unique keys, modelled as an association list. -/
structure SessionOptions where
  pythonVersion : Option String
  pythonPlatform : Option String
  pyrightVersion : Option String
  typeCheckingMode : Option String
  configOverrides : Option (List (String × Bool))
  locale : Option String
  deriving DecidableEq

/-- JS object field assignment `config[k] = v`. -/
def setConfigKey (cfg : List (String × ConfigValue)) (k : String)
    (v : ConfigValue) : List (String × ConfigValue) :=
  assocSet cfg k v

/-- Read a key of the synthesized config object. -/
def configLookup (cfg : List (String × ConfigValue)) (k : String) :
    Option ConfigValue :=
  assocLookup cfg k

/-- Optional chaining `sessionOptions?.f` for a string field. -/
def optField (so : Option SessionOptions) (f : SessionOptions → Option String) :
    Option String :=
  match so with
  | none => none
  | some o => f o

/-- First statement block of `synthesizePyrightConfigFile`: assign
`config.pythonVersion`, the caller's value when truthy, else the default. -/
def configStagePythonVersion (sessionOptions : Option SessionOptions)
    (config : List (String × ConfigValue)) : List (String × ConfigValue) :=
  if truthyStr (optField sessionOptions SessionOptions.pythonVersion) then
    setConfigKey config "pythonVersion"
      (ConfigValue.str ((optField sessionOptions SessionOptions.pythonVersion).getD ""))
  else
    setConfigKey config "pythonVersion" (ConfigValue.str defaultPythonVersion)

/-- Second statement block of `synthesizePyrightConfigFile`: assign
`config.pythonPlatform`, the caller's value when truthy, else the default. -/
def configStagePythonPlatform (sessionOptions : Option SessionOptions)
    (config : List (String × ConfigValue)) : List (String × ConfigValue) :=
  if truthyStr (optField sessionOptions SessionOptions.pythonPlatform) then
    setConfigKey config "pythonPlatform"
      (ConfigValue.str ((optField sessionOptions SessionOptions.pythonPlatform).getD ""))
  else
    setConfigKey config "pythonPlatform" (ConfigValue.str defaultPythonPlatform)

/-- Third statement block of `synthesizePyrightConfigFile`: assign
`config.typeCheckingMode` only when the caller's value is truthy. -/
def configStageTypeCheckingMode (sessionOptions : Option SessionOptions)
    (config : List (String × ConfigValue)) : List (String × ConfigValue) :=
  if truthyStr (optField sessionOptions SessionOptions.typeCheckingMode) then
    setConfigKey config "typeCheckingMode"
      (ConfigValue.str ((optField sessionOptions SessionOptions.typeCheckingMode).getD ""))
  else config

/-- Fourth statement block of `synthesizePyrightConfigFile`: assign every
`configOverrides` entry, in order, last. -/
def configStageOverrides (sessionOptions : Option SessionOptions)
    (config : List (String × ConfigValue)) : List (String × ConfigValue) :=
  match sessionOptions with
  | none => config
  | some o =>
    match o.configOverrides with
    | none => config
    | some ov =>
      List.foldl (fun c kv => setConfigKey c kv.1 (ConfigValue.bool kv.2)) config ov

/-- Function `synthesizePyrightConfigFile`, up to the JSON serialization: the
config object it builds, as the composition of the source's four
statement blocks applied to the initially empty object. -/
def synthesizePyrightConfig (sessionOptions : Option SessionOptions) :
    List (String × ConfigValue) :=
  configStageOverrides sessionOptions
    (configStageTypeCheckingMode sessionOptions
      (configStagePythonPlatform sessionOptions
        (configStagePythonVersion sessionOptions [])))

/-- Setting a key and reading it back yields the value just written. -/
theorem assocLookup_set_self {α : Type} (l : List (String × α)) (k : String)
    (v : α) : assocLookup (assocSet l k v) k = some v := by
  unfold assocLookup assocSet
  by_cases h : List.any l (fun p => p.1 == k) = true
  · rw [if_pos h, List.find?_map]
    have hpf : ((fun p : String × α => p.1 == k) ∘
        (fun p : String × α => if p.1 == k then (k, v) else p)) =
        (fun p : String × α => p.1 == k) := by
      funext p
      by_cases hp : p.1 = k
      · simp [hp]
      · simp [hp]
    rw [hpf]
    obtain ⟨a, ha, hpa⟩ := List.any_eq_true.mp h
    have hsome : (List.find? (fun p : String × α => p.1 == k) l).isSome :=
      List.find?_isSome.mpr ⟨a, ha, hpa⟩
    obtain ⟨b, hb⟩ := Option.isSome_iff_exists.mp hsome
    have hpb := List.find?_some hb
    have hbk : b.1 = k := by simpa using hpb
    rw [hb]
    simp [hbk]
  · rw [if_neg h, List.find?_append]
    have hnone : List.find? (fun p : String × α => p.1 == k) l = none := by
      rw [List.find?_eq_none]
      intro x hx hpx
      exact h (List.any_eq_true.mpr ⟨x, hx, hpx⟩)
    rw [hnone]
    simp [List.find?]

/-- Setting one key leaves reads of any other key unchanged. -/
theorem assocLookup_set_other {α : Type} (l : List (String × α)) (k k' : String)
    (v : α) (h : k' ≠ k) :
    assocLookup (assocSet l k v) k' = assocLookup l k' := by
  unfold assocLookup assocSet
  by_cases hAny : List.any l (fun p => p.1 == k) = true
  · rw [if_pos hAny, List.find?_map]
    have hpf : ((fun p : String × α => p.1 == k') ∘
        (fun p : String × α => if p.1 == k then (k, v) else p)) =
        (fun p : String × α => p.1 == k') := by
      funext p
      by_cases hp : p.1 = k
      · simp [hp]
      · simp [hp]
    rw [hpf]
    cases hfind : List.find? (fun p : String × α => p.1 == k') l with
    | none => simp
    | some a =>
      have hpa := List.find?_some hfind
      have ha1 : a.1 = k' := by simpa using hpa
      have hak : a.1 ≠ k := by
        rw [ha1]
        exact h
      simp [hak]
  · rw [if_neg hAny, List.find?_append]
    have hkk : ((k : String) == k') = false :=
      beq_eq_false_iff_ne.mpr (fun e => h e.symm)
    cases hfind : List.find? (fun p : String × α => p.1 == k') l with
    | none => simp [List.find?, hkk]
    | some a => simp

/-- Deleting a key makes subsequent reads of it fail. -/
theorem assocLookup_remove_self {α : Type} (l : List (String × α)) (k : String) :
    assocLookup (assocRemove l k) k = none := by
  unfold assocLookup assocRemove
  have hnone : List.find? (fun p : String × α => p.1 == k)
      (List.filter (fun p => !(p.1 == k)) l) = none := by
    rw [List.find?_eq_none]
    intro x hx
    have hxk := (List.mem_filter.mp hx).2
    simp at hxk
    simp [hxk]
  rw [hnone]
  rfl

/-- Closing an id that is not registered changes nothing and performs no
effect. -/
theorem closeSession_not_found (reg : Registry) (sid : String) (rmOk : Bool)
    (h : lookupSession reg sid = none) :
    closeSession reg sid rmOk = (reg, [], none) := by
  simp [closeSession, h]

/-- After a close, the id is no longer registered (whether or not it was
registered before). -/
theorem lookupSession_closeSession_self (reg : Registry) (sid : String)
    (rmOk : Bool) : lookupSession (closeSession reg sid rmOk).1 sid = none := by
  unfold closeSession
  cases h : lookupSession reg sid with
  | none => simpa using h
  | some s =>
    simp only []
    cases hr : rmSyncResult rmOk s.tempDirPath with
    | ok u => simpa [hr] using assocLookup_remove_self reg sid
    | error e => simpa [hr] using assocLookup_remove_self reg sid

/-- The outcome of a close does not depend on whether the
temp-directory removal fails: the failure is swallowed. -/
theorem closeSession_rm_independent (reg : Registry) (sid : String)
    (rmOk rmOk2 : Bool) :
    closeSession reg sid rmOk = closeSession reg sid rmOk2 := by
  unfold closeSession
  cases h : lookupSession reg sid with
  | none => rfl
  | some s =>
    cases rmOk <;> cases rmOk2 <;> simp [rmSyncResult]

/-- C6: close is idempotent and never fails from the caller's
perspective: closing an unknown id is a no-op with no effects; the result
is independent of whether the scratch-directory removal fails (the
failure is swallowed, and the worker-kill primitive reports failure
without throwing, so it appears only as an effect); and a second close of
the same id is a no-op producing no error and no duplicate effects. -/
theorem closeSession_idempotent :
    ∀ (reg : Registry) (sid : String) (rmOk rmOk2 : Bool),
      (lookupSession reg sid = none → closeSession reg sid rmOk = (reg, [], none)) ∧
      closeSession reg sid rmOk = closeSession reg sid rmOk2 ∧
      closeSession (closeSession reg sid rmOk).1 sid rmOk2 =
        ((closeSession reg sid rmOk).1, [], none) := by
  intro reg sid rmOk rmOk2
  refine ⟨fun h => closeSession_not_found reg sid rmOk h,
    closeSession_rm_independent reg sid rmOk rmOk2, ?_⟩
  exact closeSession_not_found (closeSession reg sid rmOk).1 sid rmOk2
    (lookupSession_closeSession_self reg sid rmOk)

/-- Witness for C6 at concrete inputs: an unknown id, and a second close
after a first close with a failing directory removal. -/
theorem closeSession_idempotent_witness :
    closeSession ([] : Registry) "s1" true = ([], [], none) ∧
    closeSession
        (closeSession [("s1", ⟨"s1", "/tmp/d1", some 42, some (), 0⟩)] "s1" false).1
        "s1" true =
      ((closeSession [("s1", ⟨"s1", "/tmp/d1", some 42, some (), 0⟩)] "s1" false).1,
        [], none) := by
  exact ⟨(closeSession_idempotent [] "s1" true true).1 rfl,
    (closeSession_idempotent [("s1", ⟨"s1", "/tmp/d1", some 42, some (), 0⟩)]
      "s1" false true).2.2⟩

/-- C9: closing a registered id deregisters it and clears the
worker-process handle on the session object, even when the
scratch-directory removal fails (`rmOk` arbitrary, including `false`). -/
theorem closeSession_deregisters :
    ∀ (reg : Registry) (sid : String) (s : Session) (rmOk : Bool),
      lookupSession reg sid = some s →
      lookupSession (closeSession reg sid rmOk).1 sid = none ∧
      (closeSession reg sid rmOk).2.2 = some { s with langServerProcess := none } := by
  intro reg sid s rmOk h
  refine ⟨lookupSession_closeSession_self reg sid rmOk, ?_⟩
  unfold closeSession
  rw [h]
  cases hr : rmSyncResult rmOk s.tempDirPath with
  | ok u => simp [hr]
  | error e => simp [hr]

/-- Witness for C9 at a concrete registered session, with the directory
removal failing. -/
theorem closeSession_deregisters_witness :
    lookupSession
        (closeSession [("s1", ⟨"s1", "/tmp/d1", some 42, some (), 0⟩)] "s1" false).1
        "s1" = none ∧
    (closeSession [("s1", ⟨"s1", "/tmp/d1", some 42, some (), 0⟩)] "s1" false).2.2 =
      some ⟨"s1", "/tmp/d1", none, some (), 0⟩ := by
  exact closeSession_deregisters [("s1", ⟨"s1", "/tmp/d1", some 42, some (), 0⟩)]
    "s1" ⟨"s1", "/tmp/d1", some 42, some (), 0⟩ false rfl

/-- C1 counterexample: in a successful `startSession` run, the very first
reachable registry state already contains the new session id — before the
worker has reported spawn and before the handshake — and at that state a
lookup of the id returns a record that is not fully initialized. So it is
false that every reachable registry state maps every registered id to a
fully initialized record, and false that insertion happens only after the
handshake. -/
theorem session_registered_before_spawn_cex :
    ¬ (∀ r ∈ (startSessionRun [] "s1" "/tmp/d1" 0 42 StartOutcome.spawnInitOk
        true).trace, registryAllInitialized r = true) ∧
    ((startSessionRun [] "s1" "/tmp/d1" 0 42 StartOutcome.spawnInitOk
        true).trace.head?.map
      (fun r => (lookupSession r "s1").map fullyInitialized)) =
      some (some false) := by
  constructor
  · decide
  · rfl

/-- C1 amended: `startSession` inserts the session record into the
registry immediately, before any worker event (first traversed state);
the handles are attached on the spawn event; when creation resolves
successfully the registered record is fully initialized, and when
creation rejects (spawn error or handshake failure) the id has been
removed from the registry. -/
theorem startSession_final_registry :
    ∀ (reg : Registry) (sid tempDir : String) (now pid : Nat)
      (outcome : StartOutcome) (rmOk : Bool),
      ((startSessionRun reg sid tempDir now pid outcome rmOk).trace.head? =
        some (setSession reg sid
          { id := sid, tempDirPath := tempDir, langServerProcess := none,
            langClient := none, lastAccessTime := now })) ∧
      ((startSessionRun reg sid tempDir now pid outcome rmOk).result =
          Except.ok sid →
        lookupSession
            (startSessionRun reg sid tempDir now pid outcome rmOk).finalRegistry
            sid =
          some { id := sid, tempDirPath := tempDir,
                 langServerProcess := some pid, langClient := some (),
                 lastAccessTime := now } ∧
        fullyInitialized
          { id := sid, tempDirPath := tempDir, langServerProcess := some pid,
            langClient := some (), lastAccessTime := now } = true) ∧
      (∀ e, (startSessionRun reg sid tempDir now pid outcome rmOk).result =
          Except.error e →
        lookupSession
            (startSessionRun reg sid tempDir now pid outcome rmOk).finalRegistry
            sid = none) := by
  intro reg sid tempDir now pid outcome rmOk
  cases outcome with
  | spawnInitOk =>
    refine ⟨rfl, ?_, ?_⟩
    · intro _
      exact ⟨assocLookup_set_self _ sid _, rfl⟩
    · intro e he
      exact Except.noConfusion he
  | spawnInitFail =>
    refine ⟨rfl, ?_, ?_⟩
    · intro he
      exact Except.noConfusion he
    · intro e _
      exact lookupSession_closeSession_self _ sid rmOk
  | errorBeforeSpawn =>
    refine ⟨rfl, ?_, ?_⟩
    · intro he
      exact Except.noConfusion he
    · intro e _
      exact lookupSession_closeSession_self _ sid rmOk

/-- Witness for C1's amended statement: a successful run ends with the id
registered and fully initialized; a failed run ends with the id absent. -/
theorem startSession_final_registry_witness :
    lookupSession (startSessionRun [] "s1" "/tmp/d1" 0 42
        StartOutcome.spawnInitOk true).finalRegistry "s1" =
      some ⟨"s1", "/tmp/d1", some 42, some (), 0⟩ ∧
    lookupSession (startSessionRun [] "s1" "/tmp/d1" 0 42
        StartOutcome.errorBeforeSpawn true).finalRegistry "s1" = none := by
  exact ⟨((startSession_final_registry [] "s1" "/tmp/d1" 0 42
      StartOutcome.spawnInitOk true).2.1 rfl).1,
    (startSession_final_registry [] "s1" "/tmp/d1" 0 42
      StartOutcome.errorBeforeSpawn true).2.2
      "Failed to spawn pyright language server instance" rfl⟩

/-- C2 failing run: `installPyright` performs no eviction pass at all.
After 21 distinct successful installs into an empty store (capacity per
the claim: 20; no sessions exist, so nothing is pinned), all 21 version
directories are still present — none was evicted, and the at-most-20
bound is exceeded. -/
theorem installPyright_no_eviction :
    (installAll ⟨[], []⟩
      ["v01", "v02", "v03", "v04", "v05", "v06", "v07", "v08", "v09", "v10",
       "v11", "v12", "v13", "v14", "v15", "v16", "v17", "v18", "v19", "v20",
       "v21"] ⟨[], none⟩ (fun _ => true)).dirs =
      ["v01", "v02", "v03", "v04", "v05", "v06", "v07", "v08", "v09", "v10",
       "v11", "v12", "v13", "v14", "v15", "v16", "v17", "v18", "v19", "v20",
       "v21"] ∧
    (["v01", "v02", "v03", "v04", "v05", "v06", "v07", "v08", "v09", "v10",
      "v11", "v12", "v13", "v14", "v15", "v16", "v17", "v18", "v19", "v20",
      "v21"] : List String).length = 21 := by
  exact ⟨rfl, rfl⟩

/-- C3 failing run: after a sweep of the timeout callback, the timer is
re-armed exactly when the registry is EMPTY, the opposite of the claim.
With one live (not idle-expired) session the sweep keeps the session but
leaves no timer armed; with the session expired, the sweep empties the
registry and re-arms the timer. -/
theorem lifetimeTimer_reschedule_inverted :
    (lifetimeTimerCallback
        ⟨[("s1", ⟨"s1", "/tmp/d1", some 42, some (), 1000⟩)], true⟩ 2000
        true).sessions.length = 1 ∧
    (lifetimeTimerCallback
        ⟨[("s1", ⟨"s1", "/tmp/d1", some 42, some (), 1000⟩)], true⟩ 2000
        true).timerArmed = false ∧
    (lifetimeTimerCallback
        ⟨[("s1", ⟨"s1", "/tmp/d1", some 42, some (), 1000⟩)], true⟩ 200000
        true).sessions = [] ∧
    (lifetimeTimerCallback
        ⟨[("s1", ⟨"s1", "/tmp/d1", some 42, some (), 1000⟩)], true⟩ 200000
        true).timerArmed = true := by
  exact ⟨rfl, rfl, rfl, rfl⟩

/-- C4 failing run: when the external install collaborator fails for
version 1.2.3, `installPyright` does propagate the named failure, but the
created destination directory is NOT removed (it remains in the store),
and a subsequent install request for the same version takes the cache-hit
path: it reports success and does not invoke the collaborator again (its
invocation log is unchanged). -/
theorem installPyright_failure_keeps_dir :
    (installPyright ⟨[], []⟩ (some "1.2.3") ⟨[], none⟩ (fun _ => false)).2 =
      Except.error "Failed to install pyright@1.2.3" ∧
    (installPyright ⟨[], []⟩ (some "1.2.3") ⟨[], none⟩ (fun _ => false)).1.dirs =
      ["1.2.3"] ∧
    (installPyright
        (installPyright ⟨[], []⟩ (some "1.2.3") ⟨[], none⟩ (fun _ => false)).1
        (some "1.2.3") ⟨[], none⟩ (fun _ => false)).2 =
      Except.ok ⟨"1.2.3", "./pyright_local/1.2.3"⟩ ∧
    (installPyright
        (installPyright ⟨[], []⟩ (some "1.2.3") ⟨[], none⟩ (fun _ => false)).1
        (some "1.2.3") ⟨[], none⟩ (fun _ => false)).1.installCalls =
      (installPyright ⟨[], []⟩ (some "1.2.3") ⟨[], none⟩
        (fun _ => false)).1.installCalls := by
  exact ⟨rfl, rfl, rfl, rfl⟩

/-- C5: the cache-hit path. When the requested version's directory
already exists, `installPyright` returns its directory and the store
completely unchanged: in particular the external install collaborator is
not invoked (the invocation log is part of the unchanged store). The
equality with the unchanged store also exhibits the failing half of the
claim: the state the code maintains (`ArtifactStore`, modelled from the
source) carries no usage timestamp, so no `lastUsedAt` is or can be
updated on a cache hit. -/
theorem installPyright_cache_hit :
    ∀ (store : ArtifactStore) (v : String) (idx : NpmIndex)
      (installOk : String → Bool),
      v.isEmpty = false → store.dirs.contains v = true →
      installPyright store (some v) idx installOk =
        (store, Except.ok ⟨v, localDirName v⟩) := by
  intro store v idx installOk hv hmem
  have hmem2 : v ∈ store.dirs := by simpa using hmem
  simp [installPyright, resolveVersion, truthyStr, hv, hmem2]

/-- Witness for C5: a store already holding version 1.0.0 is returned
unchanged, with a success result and no collaborator invocation. -/
theorem installPyright_cache_hit_witness :
    installPyright ⟨["1.0.0"], []⟩ (some "1.0.0") ⟨[], none⟩ (fun _ => true) =
      (⟨["1.0.0"], []⟩, Except.ok ⟨"1.0.0", "./pyright_local/1.0.0"⟩) := by
  exact installPyright_cache_hit ⟨["1.0.0"], []⟩ "1.0.0" ⟨[], none⟩
    (fun _ => true) rfl rfl

/-- C7 counterexample: with the package index reporting latest version
2.0.9-beta while the version listing is 2.0.8, 2.0.9-beta, 2.1.0 (oldest
first), the creation-path resolver returns 2.0.9-beta — a prerelease —
whereas the most recent non-prerelease entry (the head of the filtered,
newest-first listing) is 2.1.0. The creation path applies no prerelease
filter. -/
theorem resolve_prerelease_cex :
    resolveVersion none ⟨["2.0.8", "2.0.9-beta", "2.1.0"], some "2.0.9-beta"⟩ =
      Except.ok "2.0.9-beta" ∧
    (getPyrightVersions
        ⟨["2.0.8", "2.0.9-beta", "2.1.0"], some "2.0.9-beta"⟩).head? =
      some "2.1.0" ∧
    hasHyphen "2.0.9-beta" = true ∧
    ("2.0.9-beta" : String) ≠ "2.1.0" := by
  refine ⟨rfl, rfl, rfl, by decide⟩

/-- C7 amended: with no requested version, the resolver returns the
external index's single latest-version field verbatim (no prerelease
filtering on the creation path — the hyphen filter belongs to the
version-listing operation `getPyrightVersions`); a missing latest version
propagates as a named failure with no silent fallback; and a truthy
requested version is used verbatim. -/
theorem resolveVersion_latest_verbatim :
    ∀ (idx : NpmIndex),
      (∀ v, idx.latestVersion = some v →
        resolveVersion none idx = Except.ok v) ∧
      (idx.latestVersion = none →
        resolveVersion none idx =
          Except.error "Failed to get latest version of pyright") ∧
      (∀ rv : String, rv.isEmpty = false →
        resolveVersion (some rv) idx = Except.ok rv) := by
  intro idx
  refine ⟨?_, ?_, ?_⟩
  · intro v h
    simp [resolveVersion, truthyStr, getPyrightLatestVersion, h]
  · intro h
    simp [resolveVersion, truthyStr, getPyrightLatestVersion, h]
  · intro rv h
    simp [resolveVersion, truthyStr, h]

/-- Witness for C7's amended statement: the latest field is returned even
when it is a prerelease, and a requested version is used verbatim. -/
theorem resolveVersion_latest_verbatim_witness :
    resolveVersion none ⟨["2.0.8", "2.0.9-beta", "2.1.0"], some "2.0.9-beta"⟩ =
      Except.ok "2.0.9-beta" ∧
    resolveVersion (some "1.0.0") ⟨[], none⟩ = Except.ok "1.0.0" := by
  exact ⟨(resolveVersion_latest_verbatim
      ⟨["2.0.8", "2.0.9-beta", "2.1.0"], some "2.0.9-beta"⟩).1 "2.0.9-beta" rfl,
    (resolveVersion_latest_verbatim ⟨[], none⟩).2.2 "1.0.0" rfl⟩

/-- Folding override assignments whose keys avoid `k` leaves reads of `k`
unchanged. -/
theorem configLookup_foldl_not_mem (ov : List (String × Bool))
    (c : List (String × ConfigValue)) (k : String)
    (h : k ∉ ov.map Prod.fst) :
    configLookup
        (List.foldl (fun c kv => setConfigKey c kv.1 (ConfigValue.bool kv.2))
          c ov) k =
      configLookup c k := by
  induction ov generalizing c with
  | nil => rfl
  | cons a t ih =>
    simp only [List.foldl_cons]
    have hk : k ∉ t.map Prod.fst := by
      intro hm
      exact h (by simp [hm])
    have hne : k ≠ a.1 := by
      intro e
      exact h (by simp [e])
    rw [ih _ hk]
    exact assocLookup_set_other c a.1 k (ConfigValue.bool a.2) hne

/-- Folding override assignments with pairwise-distinct keys (as with a
JS object) makes each entry's key read back as its boolean value. -/
theorem configLookup_foldl_mem (ov : List (String × Bool))
    (c : List (String × ConfigValue)) (k : String) (b : Bool)
    (hnodup : (ov.map Prod.fst).Nodup) (hmem : (k, b) ∈ ov) :
    configLookup
        (List.foldl (fun c kv => setConfigKey c kv.1 (ConfigValue.bool kv.2))
          c ov) k =
      some (ConfigValue.bool b) := by
  induction ov generalizing c with
  | nil => cases hmem
  | cons a t ih =>
    simp only [List.foldl_cons]
    simp only [List.map_cons, List.nodup_cons] at hnodup
    cases List.mem_cons.mp hmem with
    | inl he =>
      cases he.symm
      rw [configLookup_foldl_not_mem t _ k hnodup.1]
      exact assocLookup_set_self c k (ConfigValue.bool b)
    | inr hmem2 =>
      exact ih (setConfigKey c a.1 (ConfigValue.bool a.2)) hnodup.2 hmem2

/-- Reads of a key other than `pythonVersion` pass through the first
stage. -/
theorem configLookup_stage_pv_other (so : Option SessionOptions)
    (c : List (String × ConfigValue)) (k : String) (h : k ≠ "pythonVersion") :
    configLookup (configStagePythonVersion so c) k = configLookup c k := by
  unfold configStagePythonVersion
  by_cases hb : truthyStr (optField so SessionOptions.pythonVersion) = true
  · rw [if_pos hb]
    exact assocLookup_set_other c "pythonVersion" k _ h
  · rw [if_neg hb]
    exact assocLookup_set_other c "pythonVersion" k _ h

/-- Reads of a key other than `pythonPlatform` pass through the second
stage. -/
theorem configLookup_stage_pp_other (so : Option SessionOptions)
    (c : List (String × ConfigValue)) (k : String) (h : k ≠ "pythonPlatform") :
    configLookup (configStagePythonPlatform so c) k = configLookup c k := by
  unfold configStagePythonPlatform
  by_cases hb : truthyStr (optField so SessionOptions.pythonPlatform) = true
  · rw [if_pos hb]
    exact assocLookup_set_other c "pythonPlatform" k _ h
  · rw [if_neg hb]
    exact assocLookup_set_other c "pythonPlatform" k _ h

/-- Reads of a key other than `typeCheckingMode` pass through the third
stage. -/
theorem configLookup_stage_tcm_other (so : Option SessionOptions)
    (c : List (String × ConfigValue)) (k : String)
    (h : k ≠ "typeCheckingMode") :
    configLookup (configStageTypeCheckingMode so c) k = configLookup c k := by
  unfold configStageTypeCheckingMode
  by_cases hb : truthyStr (optField so SessionOptions.typeCheckingMode) = true
  · rw [if_pos hb]
    exact assocLookup_set_other c "typeCheckingMode" k _ h
  · rw [if_neg hb]

/-- With no `typeCheckingMode` supplied, the third stage is the
identity. -/
theorem configStage_tcm_skip (so : Option SessionOptions)
    (c : List (String × ConfigValue))
    (h : optField so SessionOptions.typeCheckingMode = none) :
    configStageTypeCheckingMode so c = c := by
  unfold configStageTypeCheckingMode
  rw [h]
  rfl

/-- Reads through the overrides stage of a key not among the override
keys are unchanged. -/
theorem configLookup_stage_ov_not_mem (o : SessionOptions)
    (c : List (String × ConfigValue)) (k : String)
    (h : k ∉ (o.configOverrides.getD []).map Prod.fst) :
    configLookup (configStageOverrides (some o) c) k = configLookup c k := by
  cases hov : o.configOverrides with
  | none => simp [configStageOverrides, hov]
  | some ov =>
    rw [hov] at h
    simp only [Option.getD_some] at h
    simp only [configStageOverrides, hov]
    exact configLookup_foldl_not_mem ov c k h

/-- Each override entry reads back through the overrides stage as its
boolean value, given pairwise-distinct override keys. -/
theorem configLookup_stage_ov_mem (o : SessionOptions)
    (c : List (String × ConfigValue)) (k : String) (b : Bool)
    (hnodup : ((o.configOverrides.getD []).map Prod.fst).Nodup)
    (hmem : (k, b) ∈ o.configOverrides.getD []) :
    configLookup (configStageOverrides (some o) c) k =
      some (ConfigValue.bool b) := by
  cases hov : o.configOverrides with
  | none =>
    rw [hov] at hmem
    cases hmem
  | some ov =>
    rw [hov] at hnodup hmem
    simp only [Option.getD_some] at hnodup hmem
    simp only [configStageOverrides, hov]
    exact configLookup_foldl_mem ov c k b hnodup hmem

/-- C8: the synthesized config object has target language version `3.12`
when the caller did not specify one (and did not override the key),
target platform `All` when unspecified (and not overridden), omits the
strictness-mode key when unspecified (and not overridden), and each
caller-supplied boolean override — merged last, keys pairwise distinct as
in a JS object — reads back as its boolean value, winning over any
computed default for the same key. -/
theorem synthesizeConfig_defaults_and_overrides :
    ∀ (o : SessionOptions),
      ((o.configOverrides.getD []).map Prod.fst).Nodup →
      ((o.pythonVersion = none →
          "pythonVersion" ∉ (o.configOverrides.getD []).map Prod.fst →
        configLookup (synthesizePyrightConfig (some o)) "pythonVersion" =
          some (ConfigValue.str "3.12")) ∧
       (o.pythonPlatform = none →
          "pythonPlatform" ∉ (o.configOverrides.getD []).map Prod.fst →
        configLookup (synthesizePyrightConfig (some o)) "pythonPlatform" =
          some (ConfigValue.str "All")) ∧
       (o.typeCheckingMode = none →
          "typeCheckingMode" ∉ (o.configOverrides.getD []).map Prod.fst →
        configLookup (synthesizePyrightConfig (some o)) "typeCheckingMode" =
          none) ∧
       (∀ k b, (k, b) ∈ o.configOverrides.getD [] →
        configLookup (synthesizePyrightConfig (some o)) k =
          some (ConfigValue.bool b))) := by
  intro o hnodup
  refine ⟨?_, ?_, ?_, ?_⟩
  · intro hpv hnot
    unfold synthesizePyrightConfig
    rw [configLookup_stage_ov_not_mem o _ _ hnot,
      configLookup_stage_tcm_other _ _ _ (by decide),
      configLookup_stage_pp_other _ _ _ (by decide)]
    unfold configStagePythonVersion
    have hfield : optField (some o) SessionOptions.pythonVersion = none := hpv
    rw [hfield]
    exact assocLookup_set_self [] "pythonVersion" _
  · intro hpp hnot
    unfold synthesizePyrightConfig
    rw [configLookup_stage_ov_not_mem o _ _ hnot,
      configLookup_stage_tcm_other _ _ _ (by decide)]
    unfold configStagePythonPlatform
    have hfield : optField (some o) SessionOptions.pythonPlatform = none := hpp
    rw [hfield]
    exact assocLookup_set_self _ "pythonPlatform" _
  · intro htcm hnot
    unfold synthesizePyrightConfig
    have hfield : optField (some o) SessionOptions.typeCheckingMode = none := htcm
    rw [configLookup_stage_ov_not_mem o _ _ hnot,
      configStage_tcm_skip (some o) _ hfield,
      configLookup_stage_pp_other _ _ _ (by decide),
      configLookup_stage_pv_other _ _ _ (by decide)]
    rfl
  · intro k b hmem
    unfold synthesizePyrightConfig
    exact configLookup_stage_ov_mem o _ k b hnodup hmem

/-- Witness for C8: no options supplied except two overrides, one of
which collides with the computed `pythonVersion` default and wins. -/
theorem synthesizeConfig_defaults_and_overrides_witness :
    configLookup (synthesizePyrightConfig
        (some ⟨none, none, none, none,
          some [("strict", true), ("pythonVersion", false)], none⟩))
      "pythonPlatform" = some (ConfigValue.str "All") ∧
    configLookup (synthesizePyrightConfig
        (some ⟨none, none, none, none,
          some [("strict", true), ("pythonVersion", false)], none⟩))
      "typeCheckingMode" = none ∧
    configLookup (synthesizePyrightConfig
        (some ⟨none, none, none, none,
          some [("strict", true), ("pythonVersion", false)], none⟩))
      "strict" = some (ConfigValue.bool true) ∧
    configLookup (synthesizePyrightConfig
        (some ⟨none, none, none, none,
          some [("strict", true), ("pythonVersion", false)], none⟩))
      "pythonVersion" = some (ConfigValue.bool false) := by
  refine ⟨?_, ?_, ?_, ?_⟩
  · exact (synthesizeConfig_defaults_and_overrides
      ⟨none, none, none, none,
        some [("strict", true), ("pythonVersion", false)], none⟩
      (by decide)).2.1 rfl (by decide)
  · exact (synthesizeConfig_defaults_and_overrides
      ⟨none, none, none, none,
        some [("strict", true), ("pythonVersion", false)], none⟩
      (by decide)).2.2.1 rfl (by decide)
  · exact (synthesizeConfig_defaults_and_overrides
      ⟨none, none, none, none,
        some [("strict", true), ("pythonVersion", false)], none⟩
      (by decide)).2.2.2 "strict" true (by decide)
  · exact (synthesizeConfig_defaults_and_overrides
      ⟨none, none, none, none,
        some [("strict", true), ("pythonVersion", false)], none⟩
      (by decide)).2.2.2 "pythonVersion" false (by decide)

/-- C10: in the client version listing, when every version string in the
response is a prerelease (contains a hyphen), the canary filter is
bypassed and the listing is those prerelease versions themselves, newest
first (capped at `maxPyrightVersionCount`) — in particular non-empty
whenever the response listed any version at all. -/
theorem clientVersions_prerelease_fallback :
    ∀ (versions : List String),
      (∀ v ∈ versions, hasHyphen v = true) →
      clientGetPyrightVersions versions =
        versions.reverse.take maxPyrightVersionCount ∧
      (versions ≠ [] → clientGetPyrightVersions versions ≠ []) := by
  intro versions h
  have hfil : versions.filter (fun v => !hasHyphen v) = [] := by
    rw [List.filter_eq_nil_iff]
    intro a ha
    simp [h a ha]
  have hmain : clientGetPyrightVersions versions =
      versions.reverse.take maxPyrightVersionCount := by
    simp [clientGetPyrightVersions, hfil]
  refine ⟨hmain, ?_⟩
  intro hne
  rw [hmain, Ne, List.take_eq_nil_iff]
  rintro (h50 | hrev)
  · exact absurd h50 (by decide)
  · exact hne (by simpa using hrev)

/-- Witness for C10: a response listing only prereleases yields those
prereleases, newest first, not the empty list. -/
theorem clientVersions_prerelease_fallback_witness :
    clientGetPyrightVersions ["1.0.0-a", "1.0.1-b"] = ["1.0.1-b", "1.0.0-a"] ∧
    clientGetPyrightVersions ["1.0.0-a", "1.0.1-b"] ≠ [] := by
  have h := clientVersions_prerelease_fallback ["1.0.0-a", "1.0.1-b"] (by decide)
  exact ⟨h.1, h.2 (by decide)⟩

end Playground
